import Mathlib

/-!
Shallow embedding of `src/task1/image_diffusion_todo/calculate_fid_excel.py`.

The script sweeps a (steps × eta) grid, calls an external FID engine once per
grid point, collects rows `{'steps': s, 'eta': e, 'fid': value-or-None}`, and
renders a pivot table, summary statistics, group averages and best/worst
records into an Excel workbook, a CSV file and a text report.

Modelling conventions:
* Python floats for `eta`/`fid` are modelled by `ℚ` (the script only does
  exact table lookups, comparisons and means on them).
* `None` in the `fid` field is `Option.none`; pandas NaN results are `none`.
* The filesystem, the metric engine `calculate_fid_given_paths` (which may
  raise) and the interactive "continue anyway?" prompt are external
  collaborators, bundled in `Env`.
* A raised, uncaught Python exception is modelled explicitly: the sweep loop
  records a `keyErr` flag (the `eta_to_folder[eta]` KeyError of line 57), and
  the run trace records a `crashed` flag (that KeyError, or the `ValueError`
  that `Series.idxmin` raises on an all-null column at line 163).
* pandas `Series.std(ddof=1)` is modelled by the ddof-1 sample variance over
  `ℚ` (the standard deviation is its square root, so it is defined on exactly
  the same inputs and is computed from exactly the same values).
-/

namespace FidExcel

/-- One entry of the `results` list (and one row of the DataFrame built from
it): `{'steps': steps, 'eta': eta, 'fid': fid}`, where `fid` is `None`
(`none`) when the sample folder was missing or the engine raised
(lines 66-70, 81-85, 88-92 of the script). -/
structure ResultRecord where
  steps : Nat
  eta : ℚ
  fid : Option ℚ
deriving DecidableEq

/-- Module constant `reference_path` (line 14). -/
def reference_path : String := "./data/afhq/eval"

/-- Module constant `samples_base_path` (line 15). -/
def samples_base_path : String := "./samples"

/-- Module constant `steps_list` (line 17). -/
def steps_list : List Nat := [10, 20, 50, 100, 1000]

/-- Module constant `eta_list` (line 18). -/
def eta_list : List ℚ := [0, 2/10, 5/10, 1]

/-- The `eta_to_folder` dict (lines 20-25); `none` models the KeyError a
lookup of an absent key raises. -/
def eta_to_folder (eta : ℚ) : Option String :=
  if eta = 0 then some "eta_0"
  else if eta = 2/10 then some "eta_02"
  else if eta = 5/10 then some "eta_05"
  else if eta = 1 then some "eta_1"
  else none

/-- The external collaborators of the script: `os.path.exists`, the engine
`calculate_fid_given_paths` (returns a score or raises), and the user's
answer to the "Continue anyway? (y/n)" prompt of line 45. -/
structure Env where
  dirExists : String → Bool
  calculate_fid : String → Except Unit ℚ
  userContinue : Bool

/-- Models `os.path.join(samples_base_path, f"steps_{steps}_{token}")`
(lines 57-58). -/
def samplePath (steps : Nat) (token : String) : String :=
  samples_base_path ++ "/steps_" ++ toString steps ++ "_" ++ token

/-- The iteration order of the nested loops of lines 54-55: `steps` outer
(in `steps_list` order), `eta` inner (in `eta_list` order). -/
def gridPoints (stepsL : List Nat) (etaL : List ℚ) : List (Nat × ℚ) :=
  stepsL.flatMap (fun s => etaL.map (fun e => (s, e)))

/-- Outcome of the sweep loop of lines 54-92: the `results` rows appended
before the loop finished or died, the number of engine invocations made,
and whether the uncaught `eta_to_folder[eta]` KeyError of line 57 killed
the loop. -/
structure SweepOut where
  records : List ResultRecord
  engineCalls : Nat
  keyErr : Bool
deriving DecidableEq

/-- The sweep loop (lines 54-92) over an explicit point list. Per point:
look up the eta token (an absent key raises, uncaught — the loop dies with
the rows appended so far); if the sample directory does not exist append a
row with `fid := none` and continue; otherwise call the engine, appending
the score on success and `fid := none` if it raised (the `except` of
line 86 catches everything). -/
def runSweep (env : Env) : List (Nat × ℚ) → SweepOut
  | [] => ⟨[], 0, false⟩
  | (s, e) :: rest =>
    match eta_to_folder e with
    | none => ⟨[], 0, true⟩
    | some token =>
      let path := samplePath s token
      if env.dirExists path then
        match env.calculate_fid path with
        | Except.ok v =>
          let out := runSweep env rest
          ⟨⟨s, e, some v⟩ :: out.records, out.engineCalls + 1, out.keyErr⟩
        | Except.error _ =>
          let out := runSweep env rest
          ⟨⟨s, e, none⟩ :: out.records, out.engineCalls + 1, out.keyErr⟩
      else
        let out := runSweep env rest
        ⟨⟨s, e, none⟩ :: out.records, out.engineCalls, out.keyErr⟩

/-! ### pandas Series operations on the `fid` column -/

/-- The non-null values of a column, in row order (what pandas skipna
reductions operate on). -/
def dropna (col : List (Option ℚ)) : List ℚ := col.filterMap id

/-- Minimum of a list of rationals, `none` on the empty list. -/
def listMin : List ℚ → Option ℚ
  | [] => none
  | x :: xs =>
    match listMin xs with
    | none => some x
    | some m => some (min x m)

/-- Maximum of a list of rationals, `none` on the empty list. -/
def listMax : List ℚ → Option ℚ
  | [] => none
  | x :: xs =>
    match listMax xs with
    | none => some x
    | some m => some (max x m)

/-- Models `Series.min()` (skipna, the pandas default): minimum of the non-null
values, NaN (`none`) when there are none. Used at line 126. -/
def seriesMin (col : List (Option ℚ)) : Option ℚ := listMin (dropna col)

/-- Models `Series.max()` (line 127). -/
def seriesMax (col : List (Option ℚ)) : Option ℚ := listMax (dropna col)

/-- Models `Series.mean()` (lines 128, 134, 139, 175, 180): arithmetic mean of the
non-null values, NaN (`none`) when there are none. -/
def seriesMean (col : List (Option ℚ)) : Option ℚ :=
  let l := dropna col
  if l = [] then none else some (l.sum / l.length)

/-- Models `Series.std()` with the default `ddof=1` (line 129), via the
sample variance (its square): NaN (`none`) with fewer than 2 non-null
values, else the sum of squared deviations from the mean divided by
`n - 1`. -/
def seriesVar (col : List (Option ℚ)) : Option ℚ :=
  let l := dropna col
  if l.length < 2 then none
  else some ((l.map (fun x => (x - l.sum / l.length) ^ 2)).sum / ((l.length : ℚ) - 1))

/-- Index of the first row holding the given non-null value. -/
def idxOfVal : List (Option ℚ) → ℚ → Option Nat
  | [], _ => none
  | c :: cs, v => if c = some v then some 0 else (idxOfVal cs v).map (· + 1)

/-- Models `Series.idxmin()` (lines 163, 188): the index of the first occurrence of
the minimum non-null value; pandas raises on an all-null column, modelled by
`none`. -/
def seriesIdxmin (col : List (Option ℚ)) : Option Nat :=
  (seriesMin col).bind (idxOfVal col)

/-- Models `Series.idxmax()` (lines 165, 192). -/
def seriesIdxmax (col : List (Option ℚ)) : Option Nat :=
  (seriesMax col).bind (idxOfVal col)

/-- The `fid` column of the DataFrame built at line 99. -/
def fidCol (rs : List ResultRecord) : List (Option ℚ) := rs.map (fun r => r.fid)

/-- The metrics of the successful points: the non-null `fid` values. -/
def okMetrics (rs : List ResultRecord) : List ℚ := dropna (fidCol rs)

/-! ### Aggregation: pivot, summary, group averages, best/worst -/

/-- Sorted distinct values of a natural-number column: `DataFrame.pivot`
(via `unstack`) and `groupby(sort=True)` emit labels sorted ascending. -/
def sortedDistinctNat (l : List Nat) : List Nat :=
  List.insertionSort (· ≤ ·) l.dedup

/-- Sorted distinct values of a rational column. -/
def sortedDistinctRat (l : List ℚ) : List ℚ :=
  List.insertionSort (· ≤ ·) l.dedup

/-- Row labels of `df.pivot(index='steps', ...)` after the
`sort_index()` of line 103: the distinct steps values, sorted ascending. -/
def pivotRows (rs : List ResultRecord) : List Nat :=
  sortedDistinctNat (rs.map (fun r => r.steps))

/-- Column labels of `df.pivot(..., columns='eta', ...)` (line 102): the
distinct eta values, sorted ascending by `unstack`. -/
def pivotCols (rs : List ResultRecord) : List ℚ :=
  sortedDistinctRat (rs.map (fun r => r.eta))

/-- One pivot cell: the `fid` of the row with the given `(steps, eta)` pair
(pivot requires that pair to be unique), `none` when that row's `fid` is
null or no such row exists. -/
def pivotCell (rs : List ResultRecord) (s : Nat) (e : ℚ) : Option ℚ :=
  (rs.find? (fun r => decide (r.steps = s ∧ r.eta = e))).bind (fun r => r.fid)

/-- The pivot table of lines 102-103 as a row-major matrix of cells. -/
def pivotTable (rs : List ResultRecord) : List (List (Option ℚ)) :=
  (pivotRows rs).map (fun s => (pivotCols rs).map (fun e => pivotCell rs s e))

/-- The Summary sheet of lines 122-131: Best FID = column min, Worst FID =
column max, Mean FID, Std FID (here its square, the ddof-1 variance). -/
structure SummaryStats where
  best : Option ℚ
  worst : Option ℚ
  mean : Option ℚ
  var : Option ℚ
deriving DecidableEq

/-- Build the Summary sheet from the result rows (lines 122-131). -/
def summaryOf (rs : List ResultRecord) : SummaryStats :=
  ⟨seriesMin (fidCol rs), seriesMax (fidCol rs),
   seriesMean (fidCol rs), seriesVar (fidCol rs)⟩

/-- Models `df[df['eta'] == e]`, also the `groupby('eta')` group keyed `e`. -/
def rowsWithEta (rs : List ResultRecord) (e : ℚ) : List ResultRecord :=
  rs.filter (fun r => decide (r.eta = e))

/-- Models `df[df['steps'] == s]`, also the `groupby('steps')` group keyed `s`. -/
def rowsWithSteps (rs : List ResultRecord) (s : Nat) : List ResultRecord :=
  rs.filter (fun r => decide (r.steps = s))

/-- The Avg_by_Eta sheet, `df.groupby('eta')['fid'].mean()` (lines 134-136):
group keys sorted ascending (`groupby` defaults to `sort=True`), each mapped
to the mean of the group's non-null fids. -/
def avg_by_eta (rs : List ResultRecord) : List (ℚ × Option ℚ) :=
  (sortedDistinctRat (rs.map (fun r => r.eta))).map
    (fun e => (e, seriesMean (fidCol (rowsWithEta rs e))))

/-- The Avg_by_Steps sheet, `df.groupby('steps')['fid'].mean()`
(lines 139-141). -/
def avg_by_steps (rs : List ResultRecord) : List (Nat × Option ℚ) :=
  (sortedDistinctNat (rs.map (fun r => r.steps))).map
    (fun s => (s, seriesMean (fidCol (rowsWithSteps rs s))))

/-- The per-eta average lines of the text report (lines 173-176): one line
per element of `eta_list`, in input order. -/
def textAvgByEta (rs : List ResultRecord) (etaL : List ℚ) : List (ℚ × Option ℚ) :=
  etaL.map (fun e => (e, seriesMean (fidCol (rowsWithEta rs e))))

/-- The per-steps average lines of the text report (lines 178-181). -/
def textAvgBySteps (rs : List ResultRecord) (stepsL : List Nat) : List (Nat × Option ℚ) :=
  stepsL.map (fun s => (s, seriesMean (fidCol (rowsWithSteps rs s))))

/-- Models `best = df.loc[df['fid'].idxmin()]` (lines 163-164, 188-189): the row the
text report's Best Configuration line prints; `none` when `idxmin` raises. -/
def textBest (rs : List ResultRecord) : Option ResultRecord :=
  (seriesIdxmin (fidCol rs)).bind (fun i => rs[i]?)

/-- Models `worst = df.loc[df['fid'].idxmax()]` (lines 165-166, 192-193). -/
def textWorst (rs : List ResultRecord) : Option ResultRecord :=
  (seriesIdxmax (fidCol rs)).bind (fun i => rs[i]?)

/-! ### The whole run -/

/-- Output file name of line 113. -/
def output_excel : String := "fid_results.xlsx"

/-- Output file name of line 146. -/
def output_csv : String := "fid_results.csv"

/-- Output file name of line 151. -/
def output_txt : String := "fid_results.txt"

/-- Observable trace of one invocation of `main`: the result rows built, the
number of engine invocations, which output artifacts were written to
completion, and whether an uncaught exception killed the run. -/
structure RunTrace where
  records : List ResultRecord
  engineCalls : Nat
  artifacts : List String
  crashed : Bool
deriving DecidableEq

/-- Models `main` (lines 27-198), with `steps_list` / `eta_list` as parameters.
Order of events: the samples-path check of lines 38-40 (early return), the
reference-path prompt of lines 42-47 (early return on a non-`y` answer), the
sweep loop (an uncaught KeyError kills the run before any artifact), the
workbook (lines 113-143) and CSV (lines 146-148) — their summary cells are
NaN-tolerant — then the text report, which dies at the `idxmin` of line 163
when the `fid` column has no non-null value. -/
def mainRun (env : Env) (stepsL : List Nat) (etaL : List ℚ) : RunTrace :=
  if ¬ env.dirExists samples_base_path then ⟨[], 0, [], false⟩
  else if ¬ env.dirExists reference_path ∧ ¬ env.userContinue then ⟨[], 0, [], false⟩
  else
    let out := runSweep env (gridPoints stepsL etaL)
    if out.keyErr then ⟨out.records, out.engineCalls, [], true⟩
    else
      match seriesIdxmin (fidCol out.records) with
      | none => ⟨out.records, out.engineCalls, [output_excel, output_csv], true⟩
      | some _ =>
        ⟨out.records, out.engineCalls, [output_excel, output_csv, output_txt], false⟩

/-- The identity of a record: its `(steps, eta)` configuration pair. -/
def config (r : ResultRecord) : Nat × ℚ := (r.steps, r.eta)

/-- A test environment in which every directory exists and the engine always
returns 5. -/
def envAll : Env := ⟨fun _ => true, fun _ => Except.ok 5, true⟩

/-- A test environment in which no directory exists. -/
def envNone : Env := ⟨fun _ => false, fun _ => Except.error (), false⟩

/-! ### Lemmas about the grid and the sweep loop -/

theorem gridPoints_eq_product (sl : List Nat) (el : List ℚ) :
    gridPoints sl el = sl ×ˢ el := rfl

theorem gridPoints_length (sl : List Nat) (el : List ℚ) :
    (gridPoints sl el).length = sl.length * el.length := by
  induction sl with
  | nil => simp [gridPoints]
  | cons s sl ih =>
    simp only [gridPoints, List.flatMap_cons, List.length_append, List.length_map,
      List.length_cons] at *
    rw [ih, Nat.succ_mul, Nat.add_comm]

/-- When the sweep loop finishes without a KeyError, the configurations of
the appended rows are exactly the points, in order. -/
theorem runSweep_map_config (env : Env) (pts : List (Nat × ℚ))
    (h : (runSweep env pts).keyErr = false) :
    (runSweep env pts).records.map config = pts := by
  induction pts with
  | nil => rfl
  | cons p rest ih =>
    obtain ⟨s, e⟩ := p
    cases hf : eta_to_folder e with
    | none => simp [runSweep, hf] at h
    | some token =>
      by_cases hd : env.dirExists (samplePath s token)
      · cases hc : env.calculate_fid (samplePath s token) with
        | ok v =>
          simp only [runSweep, hf, hd, if_true, hc] at h ⊢
          simpa [config] using ih h
        | error u =>
          simp only [runSweep, hf, hd, if_true, hc] at h ⊢
          simpa [config] using ih h
      · simp only [runSweep, hf, hd, if_false] at h ⊢
        simpa [config] using ih h

/-- The sweep loop dies with a KeyError exactly when some grid point's eta is
absent from `eta_to_folder`. -/
theorem runSweep_keyErr_iff (env : Env) (pts : List (Nat × ℚ)) :
    (runSweep env pts).keyErr = true ↔ ∃ p ∈ pts, eta_to_folder p.2 = none := by
  induction pts with
  | nil => simp [runSweep]
  | cons p rest ih =>
    obtain ⟨s, e⟩ := p
    cases hf : eta_to_folder e with
    | none => simp [runSweep, hf]
    | some token =>
      by_cases hd : env.dirExists (samplePath s token)
      · cases hc : env.calculate_fid (samplePath s token) with
        | ok v => simp [runSweep, hf, hd, hc, ih]
        | error u => simp [runSweep, hf, hd, hc, ih]
      · simp [runSweep, hf, hd, ih]

/-! ### Claim theorems -/

/-- C1: a run that reaches aggregation (the sweep loop finished, i.e. no
KeyError) has appended exactly one row per grid point — the row count is
`len(steps_list) * len(eta_list)`, the configurations are exactly the grid
points in order, and they are duplicate-free when the input lists are. No
per-point failure short-circuits this. -/
theorem C1_one_record_per_grid_point (env : Env) (stepsL : List Nat) (etaL : List ℚ)
    (h : (runSweep env (gridPoints stepsL etaL)).keyErr = false) :
    (runSweep env (gridPoints stepsL etaL)).records.length = stepsL.length * etaL.length
    ∧ (runSweep env (gridPoints stepsL etaL)).records.map config = gridPoints stepsL etaL
    ∧ (stepsL.Nodup → etaL.Nodup →
        ((runSweep env (gridPoints stepsL etaL)).records.map config).Nodup) := by
  have hm := runSweep_map_config env _ h
  refine ⟨?_, hm, fun h1 h2 => ?_⟩
  · have hl := congrArg List.length hm
    rw [List.length_map] at hl
    rw [hl, gridPoints_length]
  · rw [hm, gridPoints_eq_product]
    exact h1.product h2

theorem C1_one_record_per_grid_point_witness :
    (runSweep envAll (gridPoints steps_list eta_list)).keyErr = false
    ∧ ((runSweep envAll (gridPoints steps_list eta_list)).records.length
          = steps_list.length * eta_list.length
       ∧ (runSweep envAll (gridPoints steps_list eta_list)).records.map config
          = gridPoints steps_list eta_list
       ∧ (steps_list.Nodup → eta_list.Nodup →
           ((runSweep envAll (gridPoints steps_list eta_list)).records.map config).Nodup)) :=
  ⟨by norm_num [runSweep, gridPoints, eta_to_folder, envAll, steps_list, eta_list],
   C1_one_record_per_grid_point envAll steps_list eta_list
     (by norm_num [runSweep, gridPoints, eta_to_folder, envAll, steps_list, eta_list])⟩

/-- C2 counterexample: with `eta = 3/10` absent from the table, the sweep is
not stopped before work starts — the first grid point is fully processed (one
engine invocation, one appended record) and only then does the lookup at the
second point raise. -/
theorem C2_lookup_failure_cex :
    (runSweep envAll (gridPoints [10] [0, 3/10])).keyErr = true
    ∧ (runSweep envAll (gridPoints [10] [0, 3/10])).engineCalls = 1
    ∧ (runSweep envAll (gridPoints [10] [0, 3/10])).records = [⟨10, 0, some 5⟩] := by
  norm_num [runSweep, gridPoints, eta_to_folder, envAll]

/-- C2 amended: an eta absent from `eta_to_folder` makes the run fail with an
uncaught KeyError at the first grid point carrying that eta — mid-sweep, after
every earlier grid point has already been processed and its record appended,
not before sweep work starts. -/
theorem C2_lookup_failure_mid_sweep (env : Env) (good : List (Nat × ℚ))
    (p : Nat × ℚ) (rest : List (Nat × ℚ))
    (hg : ∀ q ∈ good, (eta_to_folder q.2).isSome)
    (hp : eta_to_folder p.2 = none) :
    (runSweep env (good ++ p :: rest)).keyErr = true
    ∧ (runSweep env (good ++ p :: rest)).records.map config = good := by
  induction good with
  | nil =>
    obtain ⟨s, e⟩ := p
    simp [runSweep, hp]
  | cons q gs ih =>
    obtain ⟨s, e⟩ := q
    have hq : (eta_to_folder e).isSome := hg (s, e) (by simp)
    obtain ⟨token, hf⟩ := Option.isSome_iff_exists.mp hq
    have ih2 := ih (fun q hq2 => hg q (List.mem_cons_of_mem _ hq2))
    by_cases hd : env.dirExists (samplePath s token)
    · cases hc : env.calculate_fid (samplePath s token) with
      | ok v =>
        simp only [List.cons_append, runSweep, hf, hd, if_true, hc]
        simpa [config] using ih2
      | error u =>
        simp only [List.cons_append, runSweep, hf, hd, if_true, hc]
        simpa [config] using ih2
    · simp only [List.cons_append, runSweep, hf, hd, if_false]
      simpa [config] using ih2

theorem C2_lookup_failure_mid_sweep_witness :
    ((∀ q ∈ [((10 : Nat), (0 : ℚ))], (eta_to_folder q.2).isSome)
      ∧ eta_to_folder (3/10 : ℚ) = none)
    ∧ ((runSweep envAll ([((10 : Nat), (0 : ℚ))] ++ (10, 3/10) :: [])).keyErr = true
       ∧ (runSweep envAll ([((10 : Nat), (0 : ℚ))] ++ (10, 3/10) :: [])).records.map config
          = [(10, 0)]) :=
  ⟨⟨by norm_num [eta_to_folder], by norm_num [eta_to_folder]⟩,
   C2_lookup_failure_mid_sweep envAll [(10, 0)] (10, 3/10) []
     (by norm_num [eta_to_folder]) (by norm_num [eta_to_folder])⟩

/-- C10: when the samples root does not exist, `main` returns at the check of
lines 38-40: no record is produced, the engine is never invoked, no artifact
is written, and the run does not crash. -/
theorem C10_missing_samples_root_early_return (env : Env) (stepsL : List Nat)
    (etaL : List ℚ) (h : env.dirExists samples_base_path = false) :
    mainRun env stepsL etaL = ⟨[], 0, [], false⟩ := by
  simp [mainRun, h]

theorem C10_missing_samples_root_early_return_witness :
    envNone.dirExists samples_base_path = false
    ∧ mainRun envNone steps_list eta_list = ⟨[], 0, [], false⟩ :=
  ⟨by decide, C10_missing_samples_root_early_return envNone steps_list eta_list (by decide)⟩

/-! ### Lemmas about the column reductions -/

theorem listMin_eq_none_iff (l : List ℚ) : listMin l = none ↔ l = [] := by
  cases l with
  | nil => simp [listMin]
  | cons x xs => cases h : listMin xs <;> simp [listMin, h]

theorem listMax_eq_none_iff (l : List ℚ) : listMax l = none ↔ l = [] := by
  cases l with
  | nil => simp [listMax]
  | cons x xs => cases h : listMax xs <;> simp [listMax, h]

theorem listMin_le (l : List ℚ) (m : ℚ) (h : listMin l = some m) :
    ∀ x ∈ l, m ≤ x := by
  induction l generalizing m with
  | nil => simp [listMin] at h
  | cons x xs ih =>
    cases hx : listMin xs with
    | none =>
      have hxs : xs = [] := (listMin_eq_none_iff xs).mp hx
      subst hxs
      simp only [listMin] at h
      obtain rfl : x = m := by simpa using h
      simp
    | some m2 =>
      simp only [listMin, hx] at h
      obtain rfl : min x m2 = m := by simpa using h
      intro y hy
      rcases List.mem_cons.mp hy with h1 | hmem
      · rw [h1]; exact min_le_left _ _
      · exact le_trans (min_le_right x m2) (ih m2 hx y hmem)

theorem le_listMax (l : List ℚ) (m : ℚ) (h : listMax l = some m) :
    ∀ x ∈ l, x ≤ m := by
  induction l generalizing m with
  | nil => simp [listMax] at h
  | cons x xs ih =>
    cases hx : listMax xs with
    | none =>
      have hxs : xs = [] := (listMax_eq_none_iff xs).mp hx
      subst hxs
      simp only [listMax] at h
      obtain rfl : x = m := by simpa using h
      simp
    | some m2 =>
      simp only [listMax, hx] at h
      obtain rfl : max x m2 = m := by simpa using h
      intro y hy
      rcases List.mem_cons.mp hy with h1 | hmem
      · rw [h1]; exact le_max_left _ _
      · exact le_trans (ih m2 hx y hmem) (le_max_right x m2)

theorem listMin_mem (l : List ℚ) (m : ℚ) (h : listMin l = some m) : m ∈ l := by
  induction l generalizing m with
  | nil => simp [listMin] at h
  | cons x xs ih =>
    cases hx : listMin xs with
    | none =>
      simp only [listMin, hx] at h
      obtain rfl : x = m := by simpa using h
      simp
    | some m2 =>
      simp only [listMin, hx] at h
      obtain rfl : min x m2 = m := by simpa using h
      rcases min_choice x m2 with hc | hc
      · rw [hc]; simp
      · rw [hc]; exact List.mem_cons_of_mem _ (ih m2 hx)

theorem listMax_mem (l : List ℚ) (m : ℚ) (h : listMax l = some m) : m ∈ l := by
  induction l generalizing m with
  | nil => simp [listMax] at h
  | cons x xs ih =>
    cases hx : listMax xs with
    | none =>
      simp only [listMax, hx] at h
      obtain rfl : x = m := by simpa using h
      simp
    | some m2 =>
      simp only [listMax, hx] at h
      obtain rfl : max x m2 = m := by simpa using h
      rcases max_choice x m2 with hc | hc
      · rw [hc]; simp
      · rw [hc]; exact List.mem_cons_of_mem _ (ih m2 hx)

theorem mem_dropna (col : List (Option ℚ)) (v : ℚ) :
    v ∈ dropna col ↔ some v ∈ col := by
  simp [dropna, List.mem_filterMap]

theorem idxOfVal_isSome (col : List (Option ℚ)) (v : ℚ) (h : some v ∈ col) :
    ∃ i, idxOfVal col v = some i := by
  induction col with
  | nil => simp at h
  | cons c cs ih =>
    by_cases hc : c = some v
    · exact ⟨0, by simp [idxOfVal, hc]⟩
    · have hmem : some v ∈ cs := by
        rcases List.mem_cons.mp h with h1 | h1
        · exact absurd h1.symm hc
        · exact h1
      obtain ⟨i, hi⟩ := ih hmem
      exact ⟨i + 1, by simp [idxOfVal, hc, hi]⟩

/-- The function `idxOfVal` returns the index of the FIRST row holding the value. -/
theorem idxOfVal_spec (col : List (Option ℚ)) (v : ℚ) (i : Nat)
    (h : idxOfVal col v = some i) :
    col[i]? = some (some v) ∧ ∀ j < i, col[j]? ≠ some (some v) := by
  induction col generalizing i with
  | nil => simp [idxOfVal] at h
  | cons c cs ih =>
    by_cases hc : c = some v
    · simp only [idxOfVal, hc, if_true] at h
      obtain rfl : 0 = i := by simpa using h
      simpa using hc
    · simp only [idxOfVal, hc, if_false] at h
      cases hi : idxOfVal cs v with
      | none => rw [hi] at h; simp at h
      | some i0 =>
        rw [hi] at h
        obtain rfl : i0 + 1 = i := by simpa using h
        obtain ⟨h1, h2⟩ := ih i0 hi
        refine ⟨by simpa using h1, ?_⟩
        intro j hj
        cases j with
        | zero => simpa using hc
        | succ j0 =>
          have := h2 j0 (by omega)
          simpa using this

/-- Claim C4: when at least one ok record exists, the best row selected via
`idxmin` is an ok row attaining the minimum of the ok metrics, and it is the
first row attaining it (stable argmin); dually the worst row via `idxmax`
attains the maximum and is the first to do so. -/
theorem C4_best_worst_selection (rs : List ResultRecord) (h : okMetrics rs ≠ []) :
    ∃ i j b w mb mw,
      seriesIdxmin (fidCol rs) = some i ∧ rs[i]? = some b ∧ b.fid = some mb
      ∧ (∀ x ∈ okMetrics rs, mb ≤ x)
      ∧ (∀ k < i, ∀ c, rs[k]? = some c → c.fid ≠ some mb)
      ∧ seriesIdxmax (fidCol rs) = some j ∧ rs[j]? = some w ∧ w.fid = some mw
      ∧ (∀ x ∈ okMetrics rs, x ≤ mw)
      ∧ (∀ k < j, ∀ c, rs[k]? = some c → c.fid ≠ some mw) := by
  have hcol : dropna (fidCol rs) = okMetrics rs := rfl
  obtain ⟨mb, hmb⟩ : ∃ mb, listMin (okMetrics rs) = some mb := by
    cases hm : listMin (okMetrics rs) with
    | none => exact absurd ((listMin_eq_none_iff _).mp hm) h
    | some m => exact ⟨m, rfl⟩
  obtain ⟨mw, hmw⟩ : ∃ mw, listMax (okMetrics rs) = some mw := by
    cases hm : listMax (okMetrics rs) with
    | none => exact absurd ((listMax_eq_none_iff _).mp hm) h
    | some m => exact ⟨m, rfl⟩
  obtain ⟨i, hi⟩ := idxOfVal_isSome (fidCol rs) mb
    ((mem_dropna _ _).mp (hcol ▸ listMin_mem _ _ hmb))
  obtain ⟨j, hj⟩ := idxOfVal_isSome (fidCol rs) mw
    ((mem_dropna _ _).mp (hcol ▸ listMax_mem _ _ hmw))
  obtain ⟨hgeti, hfirsti⟩ := idxOfVal_spec _ _ _ hi
  obtain ⟨hgetj, hfirstj⟩ := idxOfVal_spec _ _ _ hj
  have hmapi : (fidCol rs)[i]? = (rs[i]?).map (fun r => r.fid) := by
    simp [fidCol]
  have hmapj : (fidCol rs)[j]? = (rs[j]?).map (fun r => r.fid) := by
    simp [fidCol]
  obtain ⟨b, hb, hbf⟩ : ∃ b, rs[i]? = some b ∧ b.fid = some mb := by
    rw [hmapi] at hgeti
    cases hrs : rs[i]? with
    | none => rw [hrs] at hgeti; simp at hgeti
    | some b =>
      rw [hrs] at hgeti
      exact ⟨b, rfl, by simpa using hgeti⟩
  obtain ⟨w, hw, hwf⟩ : ∃ w, rs[j]? = some w ∧ w.fid = some mw := by
    rw [hmapj] at hgetj
    cases hrs : rs[j]? with
    | none => rw [hrs] at hgetj; simp at hgetj
    | some w =>
      rw [hrs] at hgetj
      exact ⟨w, rfl, by simpa using hgetj⟩
  refine ⟨i, j, b, w, mb, mw, ?_, hb, hbf, listMin_le _ _ hmb, ?_, ?_, hw, hwf,
    le_listMax _ _ hmw, ?_⟩
  · simp [seriesIdxmin, seriesMin, hcol, hmb, hi]
  · intro k hk c hc hcf
    have h1 := hfirsti k hk
    have hk2 : (fidCol rs)[k]? = (rs[k]?).map (fun r => r.fid) := by simp [fidCol]
    rw [hk2, hc] at h1
    simp only [Option.map_some', hcf] at h1
    exact h1 rfl
  · simp [seriesIdxmax, seriesMax, hcol, hmw, hj]
  · intro k hk c hc hcf
    have h1 := hfirstj k hk
    have hk2 : (fidCol rs)[k]? = (rs[k]?).map (fun r => r.fid) := by simp [fidCol]
    rw [hk2, hc] at h1
    simp only [Option.map_some', hcf] at h1
    exact h1 rfl

/-- A concrete ResultSet with two ok rows and one failed row. -/
def rsW : List ResultRecord := [⟨10, 0, some 3⟩, ⟨10, 1, none⟩, ⟨20, 0, some 4⟩]

theorem C4_best_worst_selection_witness :
    okMetrics rsW ≠ []
    ∧ (∃ i j b w mb mw,
        seriesIdxmin (fidCol rsW) = some i ∧ rsW[i]? = some b ∧ b.fid = some mb
        ∧ (∀ x ∈ okMetrics rsW, mb ≤ x)
        ∧ (∀ k < i, ∀ c, rsW[k]? = some c → c.fid ≠ some mb)
        ∧ seriesIdxmax (fidCol rsW) = some j ∧ rsW[j]? = some w ∧ w.fid = some mw
        ∧ (∀ x ∈ okMetrics rsW, x ≤ mw)
        ∧ (∀ k < j, ∀ c, rsW[k]? = some c → c.fid ≠ some mw)) :=
  ⟨by simp [show okMetrics rsW = [3, 4] from rfl],
   C4_best_worst_selection rsW (by simp [show okMetrics rsW = [3, 4] from rfl])⟩

/-- Claim C8: the Summary-sheet statistics are computed over exactly the ok
metrics: min and max are attained ok metrics bounding all ok metrics and are
NaN exactly when no ok record exists; the mean is the sum of the ok metrics
over their count, NaN exactly when no ok record exists; and the ddof-1
spread statistic is NaN exactly when fewer than 2 ok records exist, else the
sum of squared deviations of the ok metrics from their mean, divided by
`n - 1`. -/
theorem C8_summary_over_ok_metrics (rs : List ResultRecord) :
    ((summaryOf rs).best = none ↔ okMetrics rs = [])
    ∧ (∀ m, (summaryOf rs).best = some m → m ∈ okMetrics rs ∧ ∀ x ∈ okMetrics rs, m ≤ x)
    ∧ (∀ m, (summaryOf rs).worst = some m → m ∈ okMetrics rs ∧ ∀ x ∈ okMetrics rs, x ≤ m)
    ∧ ((summaryOf rs).mean = none ↔ okMetrics rs = [])
    ∧ (∀ μ, (summaryOf rs).mean = some μ →
        μ = (okMetrics rs).sum / (okMetrics rs).length)
    ∧ ((summaryOf rs).var = none ↔ (okMetrics rs).length < 2)
    ∧ (∀ v, (summaryOf rs).var = some v →
        v = ((okMetrics rs).map
              (fun x => (x - (okMetrics rs).sum / (okMetrics rs).length) ^ 2)).sum
            / ((okMetrics rs).length - 1)) := by
  have hcol : dropna (fidCol rs) = okMetrics rs := rfl
  refine ⟨?_, ?_, ?_, ?_, ?_, ?_, ?_⟩
  · simpa [summaryOf, seriesMin, hcol] using listMin_eq_none_iff (okMetrics rs)
  · intro m hm
    have h2 : listMin (okMetrics rs) = some m := by
      simpa [summaryOf, seriesMin, hcol] using hm
    exact ⟨listMin_mem _ _ h2, listMin_le _ _ h2⟩
  · intro m hm
    have h2 : listMax (okMetrics rs) = some m := by
      simpa [summaryOf, seriesMax, hcol] using hm
    exact ⟨listMax_mem _ _ h2, le_listMax _ _ h2⟩
  · by_cases he : okMetrics rs = [] <;> simp [summaryOf, seriesMean, hcol, he]
  · intro μ hμ
    by_cases he : okMetrics rs = []
    · simp [summaryOf, seriesMean, hcol, he] at hμ
    · simp only [summaryOf, seriesMean, hcol, he, if_false] at hμ
      simpa using hμ.symm
  · by_cases hl : (okMetrics rs).length < 2 <;> simp [summaryOf, seriesVar, hcol, hl]
  · intro v hv
    by_cases hl : (okMetrics rs).length < 2
    · simp [summaryOf, seriesVar, hcol, hl] at hv
    · simp only [summaryOf, seriesVar, hcol, hl, if_false] at hv
      simpa using hv.symm

theorem C8_summary_over_ok_metrics_witness :
    (summaryOf rsW).best = some 3
    ∧ ((3 : ℚ) ∈ okMetrics rsW ∧ ∀ x ∈ okMetrics rsW, (3 : ℚ) ≤ x) :=
  ⟨by norm_num [summaryOf, seriesMin, show dropna (fidCol rsW) = [3, 4] from rfl,
      listMin, min_def],
   (C8_summary_over_ok_metrics rsW).2.1 3
     (by norm_num [summaryOf, seriesMin, show dropna (fidCol rsW) = [3, 4] from rfl,
        listMin, min_def])⟩

/-! ### C3: behaviour when no ok record exists -/

/-- An environment where only the samples root itself exists: every sample
directory is missing, and the engine (never reached) would raise. -/
def envOnlyRoot : Env :=
  ⟨fun p => decide (p = samples_base_path), fun _ => Except.error (), true⟩

/-- C3 counterexample: with every sample directory absent there is no ok
record, and the run CRASHES during reporting (the `idxmin` of line 163 raises
on the all-null fid column) instead of reporting "no data": the workbook and
CSV are written, the text report is not. -/
theorem C3_no_ok_records_cex :
    okMetrics (mainRun envOnlyRoot [10] [0]).records = []
    ∧ (mainRun envOnlyRoot [10] [0]).crashed = true
    ∧ (mainRun envOnlyRoot [10] [0]).artifacts = [output_excel, output_csv] := by
  norm_num [mainRun, envOnlyRoot, runSweep, gridPoints, eta_to_folder, okMetrics,
    fidCol, dropna, seriesIdxmin, seriesMin, listMin,
    show reference_path ≠ samples_base_path from by decide,
    show samplePath 10 "eta_0" ≠ samples_base_path from by decide]

/-- C3 amended: when the sweep completes with zero ok records, the summary
statistics are indeed all undefined (NaN/none), but the reporting stage does
not degrade gracefully: the run crashes at the best-row selection (`idxmin`
raises on the all-null column), completing the workbook and CSV but not the
text report. -/
theorem C3_no_ok_records_crash (env : Env) (stepsL : List Nat) (etaL : List ℚ)
    (hroot : env.dirExists samples_base_path = true)
    (href : env.dirExists reference_path = true ∨ env.userContinue = true)
    (hkey : (runSweep env (gridPoints stepsL etaL)).keyErr = false)
    (hok : okMetrics (runSweep env (gridPoints stepsL etaL)).records = []) :
    (summaryOf (runSweep env (gridPoints stepsL etaL)).records).best = none
    ∧ (summaryOf (runSweep env (gridPoints stepsL etaL)).records).worst = none
    ∧ (summaryOf (runSweep env (gridPoints stepsL etaL)).records).mean = none
    ∧ (mainRun env stepsL etaL).crashed = true
    ∧ (mainRun env stepsL etaL).artifacts = [output_excel, output_csv] := by
  have hdrop : dropna (fidCol (runSweep env (gridPoints stepsL etaL)).records) = [] := hok
  have hidx : seriesIdxmin (fidCol (runSweep env (gridPoints stepsL etaL)).records)
      = none := by
    simp [seriesIdxmin, seriesMin, hdrop, listMin]
  have h2 : ¬ (env.dirExists reference_path = false ∧ env.userContinue = false) := by
    rcases href with h3 | h3 <;> simp [h3]
  refine ⟨?_, ?_, ?_, ?_, ?_⟩
  · simp [summaryOf, seriesMin, hdrop, listMin]
  · simp [summaryOf, seriesMax, hdrop, listMax]
  · simp [summaryOf, seriesMean, hdrop]
  · simp [mainRun, hroot, h2, hkey, hidx]
  · simp [mainRun, hroot, h2, hkey, hidx]

theorem C3_no_ok_records_crash_witness :
    (envOnlyRoot.dirExists samples_base_path = true
     ∧ (envOnlyRoot.dirExists reference_path = true ∨ envOnlyRoot.userContinue = true)
     ∧ (runSweep envOnlyRoot (gridPoints [10] [0])).keyErr = false
     ∧ okMetrics (runSweep envOnlyRoot (gridPoints [10] [0])).records = [])
    ∧ ((summaryOf (runSweep envOnlyRoot (gridPoints [10] [0])).records).best = none
       ∧ (summaryOf (runSweep envOnlyRoot (gridPoints [10] [0])).records).worst = none
       ∧ (summaryOf (runSweep envOnlyRoot (gridPoints [10] [0])).records).mean = none
       ∧ (mainRun envOnlyRoot [10] [0]).crashed = true
       ∧ (mainRun envOnlyRoot [10] [0]).artifacts = [output_excel, output_csv]) :=
  ⟨⟨by decide,
    Or.inr (by decide),
    by norm_num [runSweep, gridPoints, eta_to_folder, envOnlyRoot,
      show samplePath 10 "eta_0" ≠ samples_base_path from by decide],
    by norm_num [runSweep, gridPoints, eta_to_folder, envOnlyRoot, okMetrics,
      fidCol, dropna, show samplePath 10 "eta_0" ≠ samples_base_path from by decide]⟩,
   C3_no_ok_records_crash envOnlyRoot [10] [0]
     (by decide)
     (Or.inr (by decide))
     (by norm_num [runSweep, gridPoints, eta_to_folder, envOnlyRoot,
        show samplePath 10 "eta_0" ≠ samples_base_path from by decide])
     (by norm_num [runSweep, gridPoints, eta_to_folder, envOnlyRoot, okMetrics,
        fidCol, dropna, show samplePath 10 "eta_0" ≠ samples_base_path from by decide])⟩

/-! ### C5: what a record records about a point's failure mode -/

/-- An environment where the directory of `(10, eta 1.0)` is missing and the
engine succeeds everywhere with 5. -/
def envMissing101 : Env :=
  ⟨fun p => if p = samplePath 10 "eta_1" then false else true,
   fun _ => Except.ok 5, true⟩

/-- An environment where every directory exists and the engine raises exactly
at `(10, eta 1.0)`, succeeding elsewhere with 5. -/
def envError101 : Env :=
  ⟨fun _ => true,
   fun p => if p = samplePath 10 "eta_1" then Except.error () else Except.ok 5,
   true⟩

/-- C5 counterexample: a record carries no status field. A missing directory
at `(10, 1.0)` and a raised engine error at `(10, 1.0)` yield the very same
records (`fid = None` both ways), so the two failure modes are NOT
distinguishable from the ResultSet. -/
theorem C5_status_cex :
    (runSweep envMissing101 (gridPoints [10] [0, 1])).records
      = (runSweep envError101 (gridPoints [10] [0, 1])).records
    ∧ (runSweep envMissing101 (gridPoints [10] [0, 1])).records
      = [⟨10, 0, some 5⟩, ⟨10, 1, none⟩] := by
  norm_num [runSweep, gridPoints, eta_to_folder, envMissing101, envError101,
    show samplePath 10 "eta_0" ≠ samplePath 10 "eta_1" from by decide]

/-- The record the loop body appends for one processed grid point
(lines 64-92), as a function of the point. -/
def pointRecord (env : Env) (p : Nat × ℚ) : ResultRecord :=
  match eta_to_folder p.2 with
  | none => ⟨p.1, p.2, none⟩
  | some token =>
    if env.dirExists (samplePath p.1 token) then
      match env.calculate_fid (samplePath p.1 token) with
      | Except.ok v => ⟨p.1, p.2, some v⟩
      | Except.error _ => ⟨p.1, p.2, none⟩
    else ⟨p.1, p.2, none⟩

/-- C5 amended: each record of a completed sweep carries only
`fid : float | absent`. `fid = some v` marks an engine success returning `v`
(so ok points are distinguishable from failed ones), while `fid = none`
marks "directory missing OR engine raised" — the two failure modes produce
identical records. -/
theorem C5_fid_is_the_only_status (env : Env) (pts : List (Nat × ℚ))
    (h : (runSweep env pts).keyErr = false) :
    (runSweep env pts).records = pts.map (pointRecord env)
    ∧ (∀ p token, eta_to_folder p.2 = some token →
        ((pointRecord env p).fid = none ↔
          env.dirExists (samplePath p.1 token) = false
          ∨ env.calculate_fid (samplePath p.1 token) = Except.error ()))
    ∧ (∀ p token, eta_to_folder p.2 = some token →
        ∀ v, (pointRecord env p).fid = some v →
          env.dirExists (samplePath p.1 token) = true
          ∧ env.calculate_fid (samplePath p.1 token) = Except.ok v) := by
  refine ⟨?_, ?_, ?_⟩
  · induction pts with
    | nil => rfl
    | cons q rest ih =>
      obtain ⟨s, e⟩ := q
      cases hf : eta_to_folder e with
      | none => simp [runSweep, hf] at h
      | some token =>
        by_cases hd : env.dirExists (samplePath s token)
        · cases hc : env.calculate_fid (samplePath s token) with
          | ok v =>
            simp only [runSweep, hf, hd, if_true, hc] at h ⊢
            simp [pointRecord, hf, hd, hc, ih h]
          | error u =>
            simp only [runSweep, hf, hd, if_true, hc] at h ⊢
            simp [pointRecord, hf, hd, hc, ih h]
        · simp only [runSweep, hf, hd, if_false] at h ⊢
          simp [pointRecord, hf, hd, ih h]
  · intro p token hf
    by_cases hd : env.dirExists (samplePath p.1 token)
    · cases hc : env.calculate_fid (samplePath p.1 token) with
      | ok v => simp [pointRecord, hf, hd, hc]
      | error u => cases u; simp [pointRecord, hf, hd, hc]
    · simp only [pointRecord, hf, hd, if_false]
      simp [Bool.not_eq_true] at hd
      simp [hd]
  · intro p token hf v hv
    by_cases hd : env.dirExists (samplePath p.1 token)
    · cases hc : env.calculate_fid (samplePath p.1 token) with
      | ok w =>
        simp only [pointRecord, hf, hd, if_true, hc] at hv
        have hwv : w = v := by simpa using hv
        exact ⟨hd, by rw [hwv]⟩
      | error u => simp [pointRecord, hf, hd, hc] at hv
    · simp [pointRecord, hf, hd] at hv

/-- The spec's mixed scenario over steps [10, 20] and eta [0, 1.0]: the
engine returns 3.0 at (10, 0) and raises at (10, 1.0); the directory of
(20, 1.0) is missing; the engine returns 4.0 at (20, 0). -/
def envScenario : Env :=
  ⟨fun p => if p = samplePath 20 "eta_1" then false else true,
   fun p => if p = samplePath 10 "eta_1" then Except.error ()
            else if p = samplePath 10 "eta_0" then Except.ok 3 else Except.ok 4,
   true⟩

theorem C5_fid_is_the_only_status_witness :
    (runSweep envScenario (gridPoints [10, 20] [0, 1])).keyErr = false
    ∧ ((runSweep envScenario (gridPoints [10, 20] [0, 1])).records
        = (gridPoints [10, 20] [0, 1]).map (pointRecord envScenario)
       ∧ (∀ p token, eta_to_folder p.2 = some token →
           ((pointRecord envScenario p).fid = none ↔
             envScenario.dirExists (samplePath p.1 token) = false
             ∨ envScenario.calculate_fid (samplePath p.1 token) = Except.error ()))
       ∧ (∀ p token, eta_to_folder p.2 = some token →
           ∀ v, (pointRecord envScenario p).fid = some v →
             envScenario.dirExists (samplePath p.1 token) = true
             ∧ envScenario.calculate_fid (samplePath p.1 token) = Except.ok v)) :=
  ⟨by norm_num [runSweep, gridPoints, eta_to_folder, envScenario,
      show samplePath 10 "eta_0" ≠ samplePath 20 "eta_1" from by decide,
      show samplePath 10 "eta_1" ≠ samplePath 20 "eta_1" from by decide,
      show samplePath 20 "eta_0" ≠ samplePath 20 "eta_1" from by decide,
      show samplePath 10 "eta_0" ≠ samplePath 10 "eta_1" from by decide,
      show samplePath 20 "eta_0" ≠ samplePath 10 "eta_1" from by decide,
      show samplePath 20 "eta_0" ≠ samplePath 10 "eta_0" from by decide],
   C5_fid_is_the_only_status envScenario (gridPoints [10, 20] [0, 1])
     (by norm_num [runSweep, gridPoints, eta_to_folder, envScenario,
        show samplePath 10 "eta_0" ≠ samplePath 20 "eta_1" from by decide,
        show samplePath 10 "eta_1" ≠ samplePath 20 "eta_1" from by decide,
        show samplePath 20 "eta_0" ≠ samplePath 20 "eta_1" from by decide,
        show samplePath 10 "eta_0" ≠ samplePath 10 "eta_1" from by decide,
        show samplePath 20 "eta_0" ≠ samplePath 10 "eta_1" from by decide,
        show samplePath 20 "eta_0" ≠ samplePath 10 "eta_0" from by decide])⟩

/-! ### C6: the pivot table -/

/-- Sorting the distinct values of the unsorted eta column `[1, 0]` yields
`[0, 1]`. -/
theorem sortedDistinctRat_one_zero : sortedDistinctRat [1, 0] = [0, 1] := by
  have h1 : ((1 : ℚ) :: [0]).dedup = [1, 0] := by
    rw [List.dedup_cons_of_not_mem (by norm_num),
      List.dedup_cons_of_not_mem (by simp), List.dedup_nil]
  simp only [sortedDistinctRat, h1, List.insertionSort, List.orderedInsert]
  norm_num

/-- A cell of the pivot of a config-duplicate-free ResultSet is the matching
row's fid. -/
theorem pivotCell_of_mem (rs : List ResultRecord) (hnd : (rs.map config).Nodup)
    (r : ResultRecord) (hr : r ∈ rs) :
    pivotCell rs r.steps r.eta = r.fid := by
  induction rs with
  | nil => cases hr
  | cons a rest ih =>
    rcases List.mem_cons.mp hr with rfl | hmem
    · have hp : (fun x => decide (x.steps = r.steps ∧ x.eta = r.eta)) r = true := by
        simp
      simp [pivotCell, List.find?_cons_of_pos _ hp]
    · have hna : config a ∉ rest.map config := (List.nodup_cons.mp hnd).1
      have hne : ¬ ((fun x => decide (x.steps = r.steps ∧ x.eta = r.eta)) a = true) := by
        simp only [decide_eq_true_eq]
        rintro ⟨h1, h2⟩
        apply hna
        have hcfg : config a = config r := by simp [config, h1, h2]
        rw [hcfg]
        exact List.mem_map_of_mem config hmem
      have hstep := @List.find?_cons_of_neg ResultRecord
        (fun x => decide (x.steps = r.steps ∧ x.eta = r.eta)) a rest hne
      rw [show pivotCell (a :: rest) r.steps r.eta
            = ((a :: rest).find? (fun x => decide (x.steps = r.steps ∧ x.eta = r.eta))).bind
                (fun r => r.fid) from rfl, hstep]
      exact ih (List.nodup_cons.mp hnd).2 hmem

/-- C6 counterexample: with the unsorted eta input order `[1, 0]`, the pivot
columns come out `[0, 1]` — sorted ascending, NOT in the input order
`[1, 0]`. -/
theorem C6_pivot_col_order_cex :
    pivotCols (runSweep envAll (gridPoints [10] [1, 0])).records = [0, 1]
    ∧ pivotCols (runSweep envAll (gridPoints [10] [1, 0])).records ≠ [1, 0] := by
  have hrec : (runSweep envAll (gridPoints [10] [1, 0])).records
      = [⟨10, 1, some 5⟩, ⟨10, 0, some 5⟩] := by
    norm_num [runSweep, gridPoints, eta_to_folder, envAll]
  have hcols : pivotCols (runSweep envAll (gridPoints [10] [1, 0])).records = [0, 1] := by
    rw [hrec]
    simp only [pivotCols, List.map_cons, List.map_nil]
    exact sortedDistinctRat_one_zero
  refine ⟨hcols, ?_⟩
  rw [hcols]
  intro hbad
  have := List.head_eq_of_cons_eq hbad
  norm_num at this

/-- C6 amended: the pivot of a config-duplicate-free ResultSet has row labels
the distinct steps values sorted ascending, column labels the distinct eta
values sorted ascending (NOT the eta input order), row count = number of
distinct steps values, each row of length = number of distinct eta values,
and each cell carries the point's metric when ok and an explicit null
(`none`, never zero) otherwise. -/
theorem C6_pivot_shape (rs : List ResultRecord) (hnd : (rs.map config).Nodup) :
    List.Sorted (· ≤ ·) (pivotRows rs)
    ∧ List.Sorted (· ≤ ·) (pivotCols rs)
    ∧ (pivotRows rs).Nodup
    ∧ (pivotCols rs).Nodup
    ∧ (pivotTable rs).length = (rs.map (fun r => r.steps)).dedup.length
    ∧ (∀ row ∈ pivotTable rs, row.length = (rs.map (fun r => r.eta)).dedup.length)
    ∧ (∀ r ∈ rs, pivotCell rs r.steps r.eta = r.fid) := by
  refine ⟨List.sorted_insertionSort _ _, List.sorted_insertionSort _ _,
    (List.perm_insertionSort _ _).symm.nodup (List.nodup_dedup _),
    (List.perm_insertionSort _ _).symm.nodup (List.nodup_dedup _),
    ?_, ?_, fun r hr => pivotCell_of_mem rs hnd r hr⟩
  · simp [pivotTable, pivotRows, sortedDistinctNat, List.length_insertionSort]
  · intro row hrow
    obtain ⟨s, _, rfl⟩ := List.mem_map.mp hrow
    simp [pivotCols, sortedDistinctRat, List.length_insertionSort]

theorem C6_pivot_shape_witness :
    (rsW.map config).Nodup
    ∧ (List.Sorted (· ≤ ·) (pivotRows rsW)
       ∧ List.Sorted (· ≤ ·) (pivotCols rsW)
       ∧ (pivotRows rsW).Nodup
       ∧ (pivotCols rsW).Nodup
       ∧ (pivotTable rsW).length = (rsW.map (fun r => r.steps)).dedup.length
       ∧ (∀ row ∈ pivotTable rsW, row.length = (rsW.map (fun r => r.eta)).dedup.length)
       ∧ (∀ r ∈ rsW, pivotCell rsW r.steps r.eta = r.fid)) :=
  ⟨by norm_num [rsW, config], C6_pivot_shape rsW (by norm_num [rsW, config])⟩

/-! ### C7: group averages -/

/-- C7 counterexample: with the unsorted eta input order `[1, 0]`, the
workbook's Avg_by_Eta sheet (groupby, `sort=True`) is keyed `[0, 1]` —
sorted ascending, NOT the input order. -/
theorem C7_group_average_order_cex :
    (avg_by_eta (runSweep envAll (gridPoints [10] [1, 0])).records).map Prod.fst = [0, 1]
    ∧ (avg_by_eta (runSweep envAll (gridPoints [10] [1, 0])).records).map Prod.fst
        ≠ [1, 0] := by
  have hrec : (runSweep envAll (gridPoints [10] [1, 0])).records
      = [⟨10, 1, some 5⟩, ⟨10, 0, some 5⟩] := by
    norm_num [runSweep, gridPoints, eta_to_folder, envAll]
  have hkeys : (avg_by_eta (runSweep envAll (gridPoints [10] [1, 0])).records).map Prod.fst
      = [0, 1] := by
    rw [hrec]
    simp only [avg_by_eta, List.map_map, List.map_cons, List.map_nil]
    have : (Prod.fst ∘ fun e => (e, seriesMean (fidCol
        (rowsWithEta [⟨10, 1, some 5⟩, ⟨10, 0, some 5⟩] e)))) = id := rfl
    rw [this, List.map_id]
    exact sortedDistinctRat_one_zero
  refine ⟨hkeys, ?_⟩
  rw [hkeys]
  intro hbad
  have := List.head_eq_of_cons_eq hbad
  norm_num at this

/-- C7 amended: the text report lists per-eta / per-steps averages in the
input order of the axis lists, while the workbook group-average sheets are
keyed by the distinct axis values sorted ascending (NOT input order when the
input is unsorted); every emitted average is the mean over exactly the ok
metrics sharing that axis value, and a group with no ok metric yields NaN
(`none`) rather than an error. -/
theorem C7_group_averages (rs : List ResultRecord) (etaL : List ℚ) (stepsL : List Nat) :
    ((textAvgByEta rs etaL).map Prod.fst = etaL)
    ∧ ((textAvgBySteps rs stepsL).map Prod.fst = stepsL)
    ∧ ((avg_by_eta rs).map Prod.fst = sortedDistinctRat (rs.map (fun r => r.eta)))
    ∧ ((avg_by_steps rs).map Prod.fst = sortedDistinctNat (rs.map (fun r => r.steps)))
    ∧ (∀ e μ, (e, μ) ∈ textAvgByEta rs etaL ∨ (e, μ) ∈ avg_by_eta rs →
        μ = seriesMean (fidCol (rowsWithEta rs e)))
    ∧ (∀ s μ, (s, μ) ∈ textAvgBySteps rs stepsL ∨ (s, μ) ∈ avg_by_steps rs →
        μ = seriesMean (fidCol (rowsWithSteps rs s)))
    ∧ (∀ e x, x ∈ okMetrics (rowsWithEta rs e) ↔ ∃ r ∈ rs, r.eta = e ∧ r.fid = some x)
    ∧ (∀ s x, x ∈ okMetrics (rowsWithSteps rs s) ↔ ∃ r ∈ rs, r.steps = s ∧ r.fid = some x)
    ∧ (∀ e, okMetrics (rowsWithEta rs e) = [] →
        seriesMean (fidCol (rowsWithEta rs e)) = none) := by
  refine ⟨?_, ?_, ?_, ?_, ?_, ?_, ?_, ?_, ?_⟩
  · simp only [textAvgByEta, List.map_map]
    rw [show (Prod.fst ∘ fun e => (e, seriesMean (fidCol (rowsWithEta rs e)))) = id from rfl,
      List.map_id]
  · simp only [textAvgBySteps, List.map_map]
    rw [show (Prod.fst ∘ fun s => (s, seriesMean (fidCol (rowsWithSteps rs s)))) = id from rfl,
      List.map_id]
  · simp only [avg_by_eta, List.map_map]
    rw [show (Prod.fst ∘ fun e => (e, seriesMean (fidCol (rowsWithEta rs e)))) = id from rfl,
      List.map_id]
  · simp only [avg_by_steps, List.map_map]
    rw [show (Prod.fst ∘ fun s => (s, seriesMean (fidCol (rowsWithSteps rs s)))) = id from rfl,
      List.map_id]
  · rintro e μ (hmem | hmem)
    · obtain ⟨a, _, hpair⟩ := List.mem_map.mp hmem
      obtain ⟨rfl, rfl⟩ : a = e ∧ (a, seriesMean (fidCol (rowsWithEta rs a))).2 = μ := by
        constructor
        · exact congrArg Prod.fst hpair
        · exact congrArg Prod.snd hpair
      rfl
    · obtain ⟨a, _, hpair⟩ := List.mem_map.mp hmem
      obtain ⟨rfl, rfl⟩ : a = e ∧ (a, seriesMean (fidCol (rowsWithEta rs a))).2 = μ := by
        constructor
        · exact congrArg Prod.fst hpair
        · exact congrArg Prod.snd hpair
      rfl
  · rintro s μ (hmem | hmem)
    · obtain ⟨a, _, hpair⟩ := List.mem_map.mp hmem
      obtain ⟨rfl, rfl⟩ : a = s ∧ (a, seriesMean (fidCol (rowsWithSteps rs a))).2 = μ := by
        constructor
        · exact congrArg Prod.fst hpair
        · exact congrArg Prod.snd hpair
      rfl
    · obtain ⟨a, _, hpair⟩ := List.mem_map.mp hmem
      obtain ⟨rfl, rfl⟩ : a = s ∧ (a, seriesMean (fidCol (rowsWithSteps rs a))).2 = μ := by
        constructor
        · exact congrArg Prod.fst hpair
        · exact congrArg Prod.snd hpair
      rfl
  · intro e x
    simp [okMetrics, fidCol, dropna, List.mem_filterMap, List.mem_map,
      rowsWithEta, List.mem_filter, and_comm, and_assoc]
    tauto
  · intro s x
    simp [okMetrics, fidCol, dropna, List.mem_filterMap, List.mem_map,
      rowsWithSteps, List.mem_filter, and_comm, and_assoc]
    tauto
  · intro e he
    have hd : dropna (fidCol (rowsWithEta rs e)) = [] := he
    simp [seriesMean, hd]

theorem C7_group_averages_witness :
    (textAvgByEta rsW [1, 0]).map Prod.fst = [1, 0] :=
  (C7_group_averages rsW [1, 0] [10, 20]).1

/-! ### C9: agreement of the three artifacts -/

/-- C9: the three artifacts agree on their numeric content, all being
derived from the one `results` DataFrame: the text report's best/worst rows
carry exactly the workbook Summary sheet's Best/Worst values, and wherever
the workbook group-average sheets and the text report's average lines list
the same axis key they carry the same average. (The pivot sheet of the
workbook and the CSV render the same `pivotTable rs` term by construction.) -/
theorem C9_artifacts_agree (rs : List ResultRecord) (etaL : List ℚ) (stepsL : List Nat)
    (h : okMetrics rs ≠ []) :
    (∃ b, textBest rs = some b ∧ b.fid = (summaryOf rs).best)
    ∧ (∃ w, textWorst rs = some w ∧ w.fid = (summaryOf rs).worst)
    ∧ (∀ e μ1 μ2, (e, μ1) ∈ avg_by_eta rs → (e, μ2) ∈ textAvgByEta rs etaL → μ1 = μ2)
    ∧ (∀ s μ1 μ2, (s, μ1) ∈ avg_by_steps rs → (s, μ2) ∈ textAvgBySteps rs stepsL →
        μ1 = μ2) := by
  have hcol : dropna (fidCol rs) = okMetrics rs := rfl
  obtain ⟨mb, hmb⟩ : ∃ mb, listMin (okMetrics rs) = some mb := by
    cases hm : listMin (okMetrics rs) with
    | none => exact absurd ((listMin_eq_none_iff _).mp hm) h
    | some m => exact ⟨m, rfl⟩
  obtain ⟨mw, hmw⟩ : ∃ mw, listMax (okMetrics rs) = some mw := by
    cases hm : listMax (okMetrics rs) with
    | none => exact absurd ((listMax_eq_none_iff _).mp hm) h
    | some m => exact ⟨m, rfl⟩
  obtain ⟨i, hi⟩ := idxOfVal_isSome (fidCol rs) mb
    ((mem_dropna _ _).mp (hcol ▸ listMin_mem _ _ hmb))
  obtain ⟨j, hj⟩ := idxOfVal_isSome (fidCol rs) mw
    ((mem_dropna _ _).mp (hcol ▸ listMax_mem _ _ hmw))
  obtain ⟨hgeti, _⟩ := idxOfVal_spec _ _ _ hi
  obtain ⟨hgetj, _⟩ := idxOfVal_spec _ _ _ hj
  refine ⟨?_, ?_, ?_, ?_⟩
  · have hmapi : (fidCol rs)[i]? = (rs[i]?).map (fun r => r.fid) := by simp [fidCol]
    rw [hmapi] at hgeti
    cases hrs : rs[i]? with
    | none => rw [hrs] at hgeti; simp at hgeti
    | some b =>
      rw [hrs] at hgeti
      refine ⟨b, ?_, ?_⟩
      · simp [textBest, seriesIdxmin, seriesMin, hcol, hmb, hi, hrs]
      · have hbf : b.fid = some mb := by simpa using hgeti
        simp [hbf, summaryOf, seriesMin, hcol, hmb]
  · have hmapj : (fidCol rs)[j]? = (rs[j]?).map (fun r => r.fid) := by simp [fidCol]
    rw [hmapj] at hgetj
    cases hrs : rs[j]? with
    | none => rw [hrs] at hgetj; simp at hgetj
    | some w =>
      rw [hrs] at hgetj
      refine ⟨w, ?_, ?_⟩
      · simp [textWorst, seriesIdxmax, seriesMax, hcol, hmw, hj, hrs]
      · have hwf : w.fid = some mw := by simpa using hgetj
        simp [hwf, summaryOf, seriesMax, hcol, hmw]
  · intro e μ1 μ2 h1 h2
    obtain ⟨a, _, hpair⟩ := List.mem_map.mp h1
    have he1 : a = e := congrArg Prod.fst hpair
    have hv1 : seriesMean (fidCol (rowsWithEta rs a)) = μ1 := congrArg Prod.snd hpair
    obtain ⟨a2, _, hpair2⟩ := List.mem_map.mp h2
    have he2 : a2 = e := congrArg Prod.fst hpair2
    have hv2 : seriesMean (fidCol (rowsWithEta rs a2)) = μ2 := congrArg Prod.snd hpair2
    rw [← hv1, ← hv2, he1, he2]
  · intro s μ1 μ2 h1 h2
    obtain ⟨a, _, hpair⟩ := List.mem_map.mp h1
    have he1 : a = s := congrArg Prod.fst hpair
    have hv1 : seriesMean (fidCol (rowsWithSteps rs a)) = μ1 := congrArg Prod.snd hpair
    obtain ⟨a2, _, hpair2⟩ := List.mem_map.mp h2
    have he2 : a2 = s := congrArg Prod.fst hpair2
    have hv2 : seriesMean (fidCol (rowsWithSteps rs a2)) = μ2 := congrArg Prod.snd hpair2
    rw [← hv1, ← hv2, he1, he2]

theorem C9_artifacts_agree_witness :
    okMetrics rsW ≠ []
    ∧ ((∃ b, textBest rsW = some b ∧ b.fid = (summaryOf rsW).best)
       ∧ (∃ w, textWorst rsW = some w ∧ w.fid = (summaryOf rsW).worst)
       ∧ (∀ e μ1 μ2, (e, μ1) ∈ avg_by_eta rsW → (e, μ2) ∈ textAvgByEta rsW [0, 1] →
           μ1 = μ2)
       ∧ (∀ s μ1 μ2, (s, μ1) ∈ avg_by_steps rsW → (s, μ2) ∈ textAvgBySteps rsW [10, 20] →
           μ1 = μ2)) :=
  ⟨by simp [show okMetrics rsW = [3, 4] from rfl],
   C9_artifacts_agree rsW [0, 1] [10, 20] (by simp [show okMetrics rsW = [3, 4] from rfl])⟩

end FidExcel
